import Mathlib

/-!
Verification of the semantic-graph engine of the ontology-kg demo.

The data model, Graph Loader (`knowledge_graph.py`) and Schema Model
(`ontology.py`) are embedded from the repository source.  The Fact Store and
the Query Engine are implemented in the repository by a third-party RDF
library (`rdflib.Graph` / its SPARQL evaluator) whose code is not part of the
repository source tree; those two components are modelled from the
specification (§4.2 Fact Store, §4.4 Query Engine), while every concrete
query pattern, grouping key, aggregate, threshold and constant comes from the
SPARQL strings and loader code in `src/knowledge_graph.py`.
-/

set_option maxRecDepth 10000

namespace OntoKG

/-- Euclidean gcd with an explicit structural fuel argument, so that it
reduces inside the kernel; `fuel ≥ a + 1` always suffices because the first
argument strictly decreases. -/
def gcdFuel : Nat → Nat → Nat → Nat
  | 0, a, b => a + b
  | _ + 1, 0, b => b
  | fuel + 1, a + 1, b => gcdFuel fuel (b % (a + 1)) (a + 1)

/-- Modelled from the spec (§4.4 numeric semantics): exact rational
arithmetic for decimal literals.  A fraction with a positive denominator,
kept normalized by construction (every operation renormalizes), so that
structural equality coincides with rational equality for engine-produced
values. -/
structure Frac where
  num : Int
  den : Nat
deriving DecidableEq, Repr

/-- Normalize a fraction by dividing out the gcd (denominator `0` is mapped
to the zero fraction; it never arises in the engine). -/
def Frac.norm (n : Int) (d : Nat) : Frac :=
  if d = 0 then ⟨0, 1⟩
  else
    let g := gcdFuel (n.natAbs + 1) n.natAbs d
    ⟨n / (g : Int), d / g⟩

/-- The fraction `n / 1`. -/
def Frac.ofInt (n : Int) : Frac := ⟨n, 1⟩

/-- Fraction addition. -/
def Frac.add (a b : Frac) : Frac :=
  Frac.norm (a.num * (b.den : Int) + b.num * (a.den : Int)) (a.den * b.den)

/-- Division helper on a signed numerator/denominator pair. -/
def Frac.divAux (n d : Int) : Frac :=
  if d < 0 then Frac.norm (-n) (-d).toNat else Frac.norm n d.toNat

/-- Fraction division (division by zero yields the zero fraction; `AVG`
only ever divides by a positive group size). -/
def Frac.div (a b : Frac) : Frac :=
  Frac.divAux (a.num * (b.den : Int)) ((a.den : Int) * b.num)

/-- Strict order by cross-multiplication (denominators are positive). -/
def Frac.lt (a b : Frac) : Prop :=
  a.num * (b.den : Int) < b.num * (a.den : Int)

instance (a b : Frac) : Decidable (Frac.lt a b) :=
  inferInstanceAs (Decidable (_ < _))

/-- Non-strict order by cross-multiplication. -/
def Frac.le (a b : Frac) : Prop :=
  a.num * (b.den : Int) ≤ b.num * (a.den : Int)

instance (a b : Frac) : Decidable (Frac.le a b) :=
  inferInstanceAs (Decidable (_ ≤ _))

/-- A graph node or literal value.  Mirrors the spec's `Value`: an Identifier
(URI) or a Literal carrying a value with a declared type tag (string,
integer, decimal, date). -/
inductive Value where
  | uri (name : String)
  | str (s : String)
  | int (n : Int)
  | dec (q : Frac)
  | date (d : String)
deriving DecidableEq, Repr

instance {ε α : Type} [DecidableEq ε] [DecidableEq α] : DecidableEq (Except ε α) := fun x y =>
  match x, y with
  | .ok u, .ok v => if h : u = v then isTrue (by simp [h]) else isFalse (by simp [h])
  | .error u, .error v => if h : u = v then isTrue (by simp [h]) else isFalse (by simp [h])
  | .ok _, .error _ => isFalse (by simp)
  | .error _, .ok _ => isFalse (by simp)

/-- A subject–predicate–object statement, the atomic fact unit. -/
structure Triple where
  subj : Value
  pred : Value
  obj : Value
deriving DecidableEq, Repr

/-- The `sales:` namespace of `ontology.py` (`http://example.org/sales#`). -/
def SALES (local_name : String) : Value :=
  Value.uri ("http://example.org/sales#" ++ local_name)

/-- `rdf:type`. -/
def rdfType : Value :=
  Value.uri "http://www.w3.org/1999/02/22-rdf-syntax-ns#type"

/-- `rdfs:label`. -/
def rdfsLabel : Value :=
  Value.uri "http://www.w3.org/2000/01/rdf-schema#label"

/-- `rdfs:comment`. -/
def rdfsComment : Value :=
  Value.uri "http://www.w3.org/2000/01/rdf-schema#comment"

/-- `rdfs:subClassOf`. -/
def rdfsSubClassOf : Value :=
  Value.uri "http://www.w3.org/2000/01/rdf-schema#subClassOf"

/-- `owl:Class`. -/
def owlClass : Value :=
  Value.uri "http://www.w3.org/2002/07/owl#Class"

/-- Modelled from the spec (§3, §4.2): the Fact Store.  In the repository the
store is `rdflib.Graph`, a third-party library absent from the source tree;
the spec describes it as a set of triples whose `insert` is a no-op when the
triple is already present. -/
structure FactStore where
  triples : List Triple
deriving DecidableEq, Repr

/-- The empty Fact Store. -/
def FactStore.empty : FactStore := ⟨[]⟩

instance : Membership Triple FactStore := ⟨fun s t => t ∈ s.triples⟩

instance (t : Triple) (s : FactStore) : Decidable (t ∈ s) :=
  inferInstanceAs (Decidable (t ∈ s.triples))

/-- Modelled from the spec (§4.2): `insert(triple)` adds a triple and is a
no-op if the triple already exists (set semantics of `rdflib.Graph.add`). -/
def FactStore.insert (s : FactStore) (t : Triple) : FactStore :=
  if t ∈ s.triples then s else ⟨t :: s.triples⟩

/-- Modelled from the spec (§4.2): `size()` is the total distinct triple
count.  Stores are only ever built by `insert` from `empty`, which never adds
a duplicate. -/
def FactStore.size (s : FactStore) : Nat :=
  s.triples.length

/-- Bulk insertion: fold `insert` over a list of triples (spec §4.2
`bulk_insert`). -/
def FactStore.insertAll (s : FactStore) (l : List Triple) : FactStore :=
  l.foldl FactStore.insert s

/-! ## Graph Loader (embedded from `src/knowledge_graph.py`) -/

/-- Python's `s.replace(" ", "_")` as used on region and subcategory names in
`knowledge_graph.py` (the pattern is the single space character, so it is a
character-wise map). -/
def replaceSpaceUnderscore (s : String) : String :=
  String.mk (s.data.map (fun c => if c = ' ' then '_' else c))

/-- A row of the products entry of `metadata.json` (`_add_products`). -/
structure ProductRec where
  id : String
  name : String
  category : String
  subcategory : String
  price : Frac
deriving DecidableEq, Repr

/-- A row of the customers entry of `metadata.json` (`_add_customers`). -/
structure CustomerRec where
  id : String
  name : String
  type : String
  region : String
  industry : String
deriving DecidableEq, Repr

/-- A row of the sales_reps entry of `metadata.json` (`_add_sales_reps`). -/
structure RepRec where
  id : String
  name : String
  region : String
  experience_years : Int
deriving DecidableEq, Repr

/-- A row of `sales_data.csv` (`_add_sales`). -/
structure SaleRow where
  sale_id : String
  date : String
  customer_id : String
  product_id : String
  sales_rep_id : String
  quantity : Int
  gross_revenue : Frac
  net_revenue : Frac
  discount_percentage : Frac
  status : String
deriving DecidableEq, Repr

/-- Loop body of `_add_regions`: the triples added for one region name. -/
def region_triples (region : String) : List Triple :=
  [⟨SALES (replaceSpaceUnderscore region), rdfType, SALES "Region"⟩,
   ⟨SALES (replaceSpaceUnderscore region), SALES "regionName", Value.str region⟩]

/-- `_add_regions`: the region list is the fixed constant
`["North America", "Europe", "Asia"]` in the source, not derived from the
input records. -/
def add_regions : List Triple :=
  (["North America", "Europe", "Asia"]).flatMap region_triples

/-- Loop body of `_add_industries`. -/
def industry_triples (industry : String) : List Triple :=
  [⟨SALES industry, rdfType, SALES "Industry"⟩,
   ⟨SALES industry, SALES "industryName", Value.str industry⟩]

/-- `_add_industries`: the industry list is a fixed constant in the source. -/
def add_industries : List Triple :=
  (["Technology", "Consulting", "Creative", "Finance", "Retail",
    "Manufacturing", "Healthcare", "Education"]).flatMap industry_triples

/-- Inner loop body of `_add_categories`: triples for one subcategory of a
category. -/
def subcategory_triples (category subcat : String) : List Triple :=
  [⟨SALES (replaceSpaceUnderscore subcat), rdfType, SALES "Category"⟩,
   ⟨SALES (replaceSpaceUnderscore subcat), SALES "categoryName", Value.str subcat⟩,
   ⟨SALES (replaceSpaceUnderscore subcat), SALES "hasSubcategory", SALES category⟩]

/-- Outer loop body of `_add_categories`. -/
def category_triples (category : String) (subcategories : List String) : List Triple :=
  [⟨SALES category, rdfType, SALES "Category"⟩,
   ⟨SALES category, SALES "categoryName", Value.str category⟩]
  ++ subcategories.flatMap (subcategory_triples category)

/-- `_add_categories`: the category/subcategory table is a fixed constant in
the source. -/
def add_categories : List Triple :=
  category_triples "Electronics" ["Computers", "Accessories", "Displays", "Mobile Devices"]
  ++ category_triples "Furniture" ["Seating", "Desks", "Lighting", "Storage"]

/-- Loop body of `_add_products`: the product is typed `ElectronicsProduct`
when its category field equals `"Electronics"`, `FurnitureProduct`
otherwise. -/
def product_triples (p : ProductRec) : List Triple :=
  (if p.category = "Electronics" then
     [⟨SALES p.id, rdfType, SALES "ElectronicsProduct"⟩]
   else
     [⟨SALES p.id, rdfType, SALES "FurnitureProduct"⟩])
  ++ [⟨SALES p.id, SALES "productId", Value.str p.id⟩,
      ⟨SALES p.id, SALES "productName", Value.str p.name⟩,
      ⟨SALES p.id, SALES "unitPrice", Value.dec p.price⟩,
      ⟨SALES p.id, SALES "belongsToCategory", SALES p.category⟩,
      ⟨SALES p.id, SALES "belongsToCategory", SALES (replaceSpaceUnderscore p.subcategory)⟩]

/-- Loop body of `_add_customers`: `Enterprise` and `SMB` are recognised and
every other type string falls through to `MidMarketCustomer`. -/
def customer_triples (c : CustomerRec) : List Triple :=
  (if c.type = "Enterprise" then
     [⟨SALES c.id, rdfType, SALES "EnterpriseCustomer"⟩]
   else if c.type = "SMB" then
     [⟨SALES c.id, rdfType, SALES "SMBCustomer"⟩]
   else
     [⟨SALES c.id, rdfType, SALES "MidMarketCustomer"⟩])
  ++ [⟨SALES c.id, SALES "customerId", Value.str c.id⟩,
      ⟨SALES c.id, SALES "customerName", Value.str c.name⟩,
      ⟨SALES c.id, SALES "customerType", Value.str c.type⟩,
      ⟨SALES c.id, SALES "locatedIn", SALES (replaceSpaceUnderscore c.region)⟩,
      ⟨SALES c.id, SALES "belongsToIndustry", SALES c.industry⟩]

/-- Loop body of `_add_sales_reps`. -/
def sales_rep_triples (r : RepRec) : List Triple :=
  [⟨SALES r.id, rdfType, SALES "SalesRepresentative"⟩,
   ⟨SALES r.id, SALES "repId", Value.str r.id⟩,
   ⟨SALES r.id, SALES "repName", Value.str r.name⟩,
   ⟨SALES r.id, SALES "experienceYears", Value.int r.experience_years⟩,
   ⟨SALES r.id, SALES "operatesIn", SALES (replaceSpaceUnderscore r.region)⟩]

/-- Loop body of `_add_sales`: the `soldTo` / `productSold` / `soldBy` edges
are formed directly from the row's id fields, with no check that the
referenced entity was loaded. -/
def sale_triples (row : SaleRow) : List Triple :=
  [⟨SALES row.sale_id, rdfType, SALES "Sale"⟩,
   ⟨SALES row.sale_id, SALES "saleId", Value.str row.sale_id⟩,
   ⟨SALES row.sale_id, SALES "saleDate", Value.date row.date⟩,
   ⟨SALES row.sale_id, SALES "quantity", Value.int row.quantity⟩,
   ⟨SALES row.sale_id, SALES "grossRevenue", Value.dec row.gross_revenue⟩,
   ⟨SALES row.sale_id, SALES "netRevenue", Value.dec row.net_revenue⟩,
   ⟨SALES row.sale_id, SALES "discountPercentage", Value.dec row.discount_percentage⟩,
   ⟨SALES row.sale_id, SALES "status", Value.str row.status⟩,
   ⟨SALES row.sale_id, SALES "soldTo", SALES row.customer_id⟩,
   ⟨SALES row.sale_id, SALES "productSold", SALES row.product_id⟩,
   ⟨SALES row.sale_id, SALES "soldBy", SALES row.sales_rep_id⟩]

/-- `load_sales_data`: the full sequence of triples the Loader emits for one
load, in the source's emission order (`_add_regions`, `_add_industries`,
`_add_categories`, `_add_products`, `_add_customers`, `_add_sales_reps`,
`_add_sales`).  The function is total: the Loader has no failure path. -/
def load_sales_data (df : List SaleRow) (products : List ProductRec)
    (customers : List CustomerRec) (sales_reps : List RepRec) : List Triple :=
  add_regions ++ add_industries ++ add_categories
  ++ products.flatMap product_triples
  ++ customers.flatMap customer_triples
  ++ sales_reps.flatMap sales_rep_triples
  ++ df.flatMap sale_triples

/-! ## Schema Model (embedded from `src/ontology.py`) -/

/-- `owl:ObjectProperty`. -/
def owlObjectProperty : Value :=
  Value.uri "http://www.w3.org/2002/07/owl#ObjectProperty"

/-- `owl:DatatypeProperty`. -/
def owlDatatypeProperty : Value :=
  Value.uri "http://www.w3.org/2002/07/owl#DatatypeProperty"

/-- `owl:FunctionalProperty`. -/
def owlFunctionalProperty : Value :=
  Value.uri "http://www.w3.org/2002/07/owl#FunctionalProperty"

/-- `owl:inverseOf`. -/
def owlInverseOf : Value :=
  Value.uri "http://www.w3.org/2002/07/owl#inverseOf"

/-- `rdfs:domain`. -/
def rdfsDomain : Value :=
  Value.uri "http://www.w3.org/2000/01/rdf-schema#domain"

/-- `rdfs:range`. -/
def rdfsRange : Value :=
  Value.uri "http://www.w3.org/2000/01/rdf-schema#range"

/-- An `xsd:` datatype identifier. -/
def XSD (local_name : String) : Value :=
  Value.uri ("http://www.w3.org/2001/XMLSchema#" ++ local_name)

/-- Loop body of `_define_classes`: the three triples one class declaration
adds (`owl:Class` assertion, label, comment). -/
def class_decl_triples (name description : String) : List Triple :=
  [⟨SALES name, rdfType, owlClass⟩,
   ⟨SALES name, rdfsLabel, Value.str name⟩,
   ⟨SALES name, rdfsComment, Value.str description⟩]

/-- Declaring one class on a schema graph (`graph.add` of the three
declaration triples). -/
def declare_class (g : FactStore) (name description : String) : FactStore :=
  g.insertAll (class_decl_triples name description)

/-- Loop body of the object-property loop of `_define_properties`. -/
def object_property_decl_triples
    (name domain range_class description : String) : List Triple :=
  [⟨SALES name, rdfType, owlObjectProperty⟩,
   ⟨SALES name, rdfsDomain, SALES domain⟩,
   ⟨SALES name, rdfsRange, SALES range_class⟩,
   ⟨SALES name, rdfsComment, Value.str description⟩]

/-- Declaring one object property on a schema graph. -/
def declare_object_property (g : FactStore)
    (name domain range_class description : String) : FactStore :=
  g.insertAll (object_property_decl_triples name domain range_class description)

/-- Loop body of the data-property loop of `_define_properties`. -/
def data_property_decl_triples
    (name domain : String) (range_type : Value) (description : String) : List Triple :=
  [⟨SALES name, rdfType, owlDatatypeProperty⟩,
   ⟨SALES name, rdfsDomain, SALES domain⟩,
   ⟨SALES name, rdfsRange, range_type⟩,
   ⟨SALES name, rdfsComment, Value.str description⟩]

/-- Declaring one data property on a schema graph. -/
def declare_data_property (g : FactStore)
    (name domain : String) (range_type : Value) (description : String) : FactStore :=
  g.insertAll (data_property_decl_triples name domain range_type description)

/-- Loop body of the reasoning-concept loop of `_define_reasoning_rules`. -/
def reasoning_concept_decl_triples (name description : String) : List Triple :=
  [⟨SALES name, rdfType, owlClass⟩,
   ⟨SALES name, rdfsComment, Value.str description⟩]

/-- Loop body of the causal-property loop of `_define_reasoning_rules`. -/
def causal_property_decl_triples (name description : String) : List Triple :=
  [⟨SALES name, rdfType, owlObjectProperty⟩,
   ⟨SALES name, rdfsComment, Value.str description⟩]

/-- The class dictionary of `_define_classes`. -/
def class_table : List (String × String) :=
  [("Sale", "A sales transaction"),
   ("Customer", "A customer entity"),
   ("Product", "A product or service"),
   ("SalesRepresentative", "A sales team member"),
   ("Region", "Geographical region"),
   ("Category", "Product category"),
   ("Industry", "Customer industry sector")]

/-- The five subclass edges of `_define_classes`. -/
def subclass_triples : List Triple :=
  [⟨SALES "EnterpriseCustomer", rdfsSubClassOf, SALES "Customer"⟩,
   ⟨SALES "SMBCustomer", rdfsSubClassOf, SALES "Customer"⟩,
   ⟨SALES "MidMarketCustomer", rdfsSubClassOf, SALES "Customer"⟩,
   ⟨SALES "ElectronicsProduct", rdfsSubClassOf, SALES "Product"⟩,
   ⟨SALES "FurnitureProduct", rdfsSubClassOf, SALES "Product"⟩]

/-- The object-property dictionary of `_define_properties`. -/
def object_property_table : List (String × String × String × String) :=
  [("soldTo", "Sale", "Customer", "Links a sale to a customer"),
   ("soldBy", "Sale", "SalesRepresentative", "Links a sale to the sales rep"),
   ("productSold", "Sale", "Product", "Links a sale to the product"),
   ("locatedIn", "Customer", "Region", "Customer's geographical location"),
   ("operatesIn", "SalesRepresentative", "Region", "Region where sales rep operates"),
   ("belongsToCategory", "Product", "Category", "Product's category"),
   ("belongsToIndustry", "Customer", "Industry", "Customer's industry"),
   ("hasSubcategory", "Category", "Category", "Hierarchical category relationship")]

/-- The data-property dictionary of `_define_properties`. -/
def data_property_table : List (String × String × Value × String) :=
  [("saleId", "Sale", XSD "string", "Unique sale identifier"),
   ("saleDate", "Sale", XSD "date", "Date of sale"),
   ("quantity", "Sale", XSD "integer", "Quantity sold"),
   ("grossRevenue", "Sale", XSD "decimal", "Revenue before discount"),
   ("netRevenue", "Sale", XSD "decimal", "Revenue after discount"),
   ("discountPercentage", "Sale", XSD "decimal", "Discount applied"),
   ("status", "Sale", XSD "string", "Sale status"),
   ("customerId", "Customer", XSD "string", "Customer identifier"),
   ("customerName", "Customer", XSD "string", "Customer name"),
   ("customerType", "Customer", XSD "string", "Customer business size"),
   ("productId", "Product", XSD "string", "Product identifier"),
   ("productName", "Product", XSD "string", "Product name"),
   ("unitPrice", "Product", XSD "decimal", "Product unit price"),
   ("repId", "SalesRepresentative", XSD "string", "Sales rep identifier"),
   ("repName", "SalesRepresentative", XSD "string", "Sales rep name"),
   ("experienceYears", "SalesRepresentative", XSD "integer", "Years of experience"),
   ("regionName", "Region", XSD "string", "Region name"),
   ("categoryName", "Category", XSD "string", "Category name"),
   ("industryName", "Industry", XSD "string", "Industry name")]

/-- `_define_axioms`: two inverse-property axioms and two functional-property
assertions. -/
def axiom_triples : List Triple :=
  [⟨SALES "soldTo", owlInverseOf, SALES "hasPurchase"⟩,
   ⟨SALES "soldBy", owlInverseOf, SALES "madeSale"⟩,
   ⟨SALES "saleDate", rdfType, owlFunctionalProperty⟩,
   ⟨SALES "saleId", rdfType, owlFunctionalProperty⟩]

/-- The reasoning-concept dictionary of `_define_reasoning_rules`. -/
def reasoning_concept_table : List (String × String) :=
  [("HighValueCustomer", "Customer with average deal size > $5000"),
   ("FrequentBuyer", "Customer with multiple purchases"),
   ("PremiumProduct", "Product with price > $400"),
   ("BudgetProduct", "Product with price < $100"),
   ("ExperiencedRep", "Sales rep with > 5 years experience"),
   ("SeasonalPattern", "Sales influenced by time period"),
   ("RegionalPreference", "Product-Region affinity pattern"),
   ("IndustryFit", "Product-Industry compatibility"),
   ("DiscountSensitive", "Customer segment responding to discounts")]

/-- The causal-property dictionary of `_define_reasoning_rules`. -/
def causal_property_table : List (String × String) :=
  [("causedBy", "Indicates causal relationship"),
   ("influences", "Indicates influence factor"),
   ("correlatesWith", "Indicates correlation"),
   ("indicatesPreference", "Shows preference pattern")]

/-- The full sequence of triples `SalesOntology.__init__` adds, in source
order (`_define_classes`, `_define_properties`, `_define_axioms`,
`_define_reasoning_rules`). -/
def ontology_triples : List Triple :=
  class_table.flatMap (fun nd => class_decl_triples nd.1 nd.2)
  ++ subclass_triples
  ++ object_property_table.flatMap
      (fun e => object_property_decl_triples e.1 e.2.1 e.2.2.1 e.2.2.2)
  ++ data_property_table.flatMap
      (fun e => data_property_decl_triples e.1 e.2.1 e.2.2.1 e.2.2.2)
  ++ axiom_triples
  ++ reasoning_concept_table.flatMap (fun nd => reasoning_concept_decl_triples nd.1 nd.2)
  ++ causal_property_table.flatMap (fun nd => causal_property_decl_triples nd.1 nd.2)

/-- `SalesOntology.__init__`: the schema graph built once from an empty
graph by adding every declaration triple. -/
def sales_ontology_graph : FactStore :=
  FactStore.empty.insertAll ontology_triples

/-- `KnowledgeGraphBuilder.__init__` followed by `load_sales_data`: a fresh
store seeded by copying every ontology triple, then populated with the
Loader's triples. -/
def knowledge_graph_store (df : List SaleRow) (products : List ProductRec)
    (customers : List CustomerRec) (sales_reps : List RepRec) : FactStore :=
  (FactStore.empty.insertAll sales_ontology_graph.triples).insertAll
    (load_sales_data df products customers sales_reps)

/-! ## Query Engine

Modelled from the spec (§4.4): in the repository, queries are SPARQL strings
evaluated by the third-party RDF library's SPARQL engine
(`KnowledgeGraphBuilder.query_sparql` delegates to `rdflib.Graph.query`),
whose implementation is not part of the source tree.  The evaluation
algorithm below follows spec §4.4 steps 1–8. -/

/-- Modelled from the spec (§4.4): a slot of a triple pattern is either a
bound value or a named variable. -/
inductive Term where
  | var (v : String)
  | val (c : Value)
deriving DecidableEq, Repr

/-- A triple pattern: one slot each for subject, predicate and object. -/
structure TriplePattern where
  s : Term
  p : Term
  o : Term
deriving DecidableEq, Repr

/-- A binding tuple: an assignment of values to variables, as an association
list. -/
abbrev Binding := List (String × Value)

/-- Look a variable up in a binding tuple. -/
def lookupVar (v : String) : List (String × Value) → Option Value
  | [] => none
  | (w, x) :: b => if w = v then some x else lookupVar v b

/-- Modelled from the spec (§4.4 step 2): matching one pattern slot against
one triple component, substituting an already-bound variable and binding a
fresh one. -/
def matchTerm (t : Term) (x : Value) (b : Binding) : Option Binding :=
  match t with
  | .val c => if c = x then some b else none
  | .var v =>
    match lookupVar v b with
    | some y => if y = x then some b else none
    | none => some ((v, x) :: b)

/-- Match a full triple pattern against one triple, extending a binding. -/
def matchPattern (pat : TriplePattern) (t : Triple) (b : Binding) : Option Binding :=
  (matchTerm pat.s t.subj b).bind (fun b1 =>
    (matchTerm pat.p t.pred b1).bind (fun b2 =>
      matchTerm pat.o t.obj b2))

/-- All extensions of a binding by triples of the store matching a pattern
(spec §4.2 `match` combined with §4.4 step 2). -/
def evalPattern (g : List Triple) (pat : TriplePattern) (b : Binding) : List Binding :=
  g.filterMap (fun t => matchPattern pat t b)

/-- Modelled from the spec (§4.4 steps 1–2): evaluate the remaining patterns,
extending every current binding tuple; a tuple with no matches is dropped
(inner-join semantics). -/
def evalBGPFrom (g : List Triple) (bs : List Binding) : List TriplePattern → List Binding
  | [] => bs
  | pat :: ps => evalBGPFrom g (bs.flatMap (evalPattern g pat)) ps

/-- Evaluate a basic graph pattern from the single empty binding. -/
def evalBGP (g : List Triple) (ps : List TriplePattern) : List Binding :=
  evalBGPFrom g [[]] ps

/-- The numeric view of a bound value: integer and decimal literals are
numeric, everything else (including an absent binding) is not. -/
def toNum : Option Value → Option Frac
  | some (.int n) => some (Frac.ofInt n)
  | some (.dec q) => some q
  | _ => none

/-- A filter comparison, as used by the catalogue (the only filter in the
source is `FILTER(?discount > 0)`). -/
inductive FilterCond where
  | gtNum (v : String) (c : Frac)
deriving DecidableEq, Repr

/-- Modelled from the spec (§4.4 step 3): a tuple passes a numeric `>` filter
when the variable is bound to a numeric literal above the constant. -/
def evalFilterCond (b : Binding) : FilterCond → Bool
  | .gtNum v c =>
    match toNum (lookupVar v b) with
    | some q => decide (Frac.lt c q)
    | none => false

/-- Effectful map over `Except`, failing at the first error (the shape of
the evaluation loop of spec §4.4 step 5). -/
def mapME {α β : Type} (f : α → Except String β) : List α → Except String (List β)
  | [] => Except.ok []
  | a :: as => (f a).bind (fun b => (mapME f as).map (fun bs => b :: bs))

/-- A grouping key: the tuple of grouping-variable values. -/
abbrev GroupKey := List (Option Value)

/-- The grouping key of one binding tuple (spec §4.4 step 4). -/
def groupKey (vars : List String) (b : Binding) : GroupKey :=
  vars.map (fun v => lookupVar v b)

/-- Add one tuple to the group list, keeping first-occurrence order of
groups. -/
def addToGroup (k : GroupKey) (b : Binding) :
    List (GroupKey × List Binding) → List (GroupKey × List Binding)
  | [] => [(k, [b])]
  | (k', bs) :: rest =>
    if k' = k then (k', bs ++ [b]) :: rest else (k', bs) :: addToGroup k b rest

/-- Modelled from the spec (§4.4 step 4): partition tuples into groups keyed
by grouping-variable values, enumeration order given by first occurrence. -/
def groupTuples (vars : List String) (bs : List Binding) : List (GroupKey × List Binding) :=
  bs.foldl (fun acc b => addToGroup (groupKey vars b) b acc) []

/-- An aggregate function of the catalogue: `COUNT`, `SUM`, `AVG`. -/
inductive AggFun where
  | count
  | sum (v : String)
  | avg (v : String)
deriving DecidableEq, Repr

/-- Modelled from the spec (§4.4 step 5): sum the numeric values of a
variable across a group, failing hard on a non-numeric or absent binding. -/
def sumNums (v : String) : List Binding → Except String Frac
  | [] => Except.ok (Frac.ofInt 0)
  | b :: bs =>
    match toNum (lookupVar v b) with
    | some q => (sumNums v bs).map (fun r => q.add r)
    | none => Except.error "TypeMismatch"

/-- Modelled from the spec (§4.4 step 5): `COUNT` is the number of tuples in
the group; `SUM`/`AVG` fail the query on non-numeric data. -/
def evalAgg (bs : List Binding) : AggFun → Except String Value
  | .count => Except.ok (Value.int bs.length)
  | .sum v => (sumNums v bs).map Value.dec
  | .avg v => (sumNums v bs).map (fun q => Value.dec (q.div (Frac.ofInt bs.length)))

/-- Modelled from the spec (§4.4): a query of the fixed family the catalogue
uses — a basic graph pattern, filters, grouping variables, named aggregates,
an optional `HAVING (COUNT(...) > n)` threshold, an optional descending
order-by over an aggregate column and an optional limit. -/
structure Query where
  patterns : List TriplePattern
  filters : List FilterCond
  groupBy : List String
  aggs : List (String × AggFun)
  havingCountGT : Option Nat
  orderByDesc : Option String
  limit : Option Nat

/-- Steps 1–3: binding tuples surviving pattern matching and filtering. -/
def queryTuples (q : Query) (g : List Triple) : List Binding :=
  (evalBGP g q.patterns).filter (fun b => q.filters.all (evalFilterCond b))

/-- Step 4: the groups of surviving tuples. -/
def queryGroups (q : Query) (g : List Triple) : List (GroupKey × List Binding) :=
  groupTuples q.groupBy (queryTuples q g)

/-- A group together with its computed aggregate columns. -/
abbrev AggRow := (GroupKey × List Binding) × List (String × Value)

/-- Step 5 for one group: compute every requested aggregate. -/
def computeAggs (q : Query) (kg : GroupKey × List Binding) : Except String AggRow :=
  (mapME (fun na => (evalAgg kg.2 na.2).map (fun v => (na.1, v))) q.aggs).map
    (fun vals => (kg, vals))

/-- Step 5: compute aggregates for every group; any `TypeMismatch` fails the
whole query. -/
def queryGroupsWithAggs (q : Query) (g : List Triple) : Except String (List AggRow) :=
  mapME (computeAggs q) (queryGroups q g)

/-- Step 6: the `HAVING (COUNT(...) > n)` predicate applied to group-level
results: a group is kept iff its tuple count exceeds the threshold. -/
def applyHaving (q : Query) (rows : List AggRow) : List AggRow :=
  match q.havingCountGT with
  | some n => rows.filter (fun r => decide (n < r.1.2.length))
  | none => rows

/-- Descending comparison on an aggregate column (ties keep enumeration
order via stable sorting). -/
def rowGE (col : String) (a b : AggRow) : Bool :=
  match toNum (lookupVar col a.2), toNum (lookupVar col b.2) with
  | some qa, some qb => decide (Frac.le qb qa)
  | _, _ => true

/-- Insert into a sorted list, after any element it ties with. -/
def insertOrdered (le : AggRow → AggRow → Bool) (x : AggRow) : List AggRow → List AggRow
  | [] => [x]
  | y :: ys => if le x y then x :: y :: ys else y :: insertOrdered le x ys

/-- Stable insertion sort (spec §4.4 step 7). -/
def stableSort (le : AggRow → AggRow → Bool) : List AggRow → List AggRow
  | [] => []
  | x :: xs => insertOrdered le x (stableSort le xs)

/-- Step 7: sort remaining groups per order-by. -/
def applyOrder (q : Query) (rows : List AggRow) : List AggRow :=
  match q.orderByDesc with
  | some col => stableSort (rowGE col) rows
  | none => rows

/-- Step 8: truncate to the limit. -/
def applyLimit (q : Query) (rows : List AggRow) : List AggRow :=
  match q.limit with
  | some n => rows.take n
  | none => rows

/-- An output record: projected grouping values and aggregate values. -/
abbrev Row := List (String × Option Value)

/-- Step 8: one output record per remaining group. -/
def projectRow (q : Query) (r : AggRow) : Row :=
  (q.groupBy.zip r.1.1).map (fun p => (p.1, p.2)) ++ r.2.map (fun p => (p.1, some p.2))

/-- The full evaluation pipeline of spec §4.4. -/
def evalQuery (q : Query) (g : List Triple) : Except String (List Row) :=
  (queryGroupsWithAggs q g).map (fun rows =>
    (applyLimit q (applyOrder q (applyHaving q rows))).map (projectRow q))

/-- The rows of a query result (`[]` when the query failed). -/
def resultRows (e : Except String (List Row)) : List Row :=
  match e with
  | .ok rows => rows
  | .error _ => []

/-! ## Insight catalogue (queries transliterated from the SPARQL strings in
`src/knowledge_graph.py`) -/

/-- `query_region` of `get_insights`: revenue by region. -/
def query_region : Query where
  patterns :=
    [⟨.var "sale", .val rdfType, .val (SALES "Sale")⟩,
     ⟨.var "sale", .val (SALES "soldTo"), .var "customer"⟩,
     ⟨.var "sale", .val (SALES "netRevenue"), .var "revenue"⟩,
     ⟨.var "sale", .val (SALES "status"), .val (Value.str "Completed")⟩,
     ⟨.var "customer", .val (SALES "locatedIn"), .var "region"⟩,
     ⟨.var "region", .val (SALES "regionName"), .var "regionName"⟩]
  filters := []
  groupBy := ["regionName"]
  aggs := [("totalRevenue", .sum "revenue"), ("saleCount", .count)]
  havingCountGT := none
  orderByDesc := some "totalRevenue"
  limit := none

/-- `query_products` of `get_insights`: top products. -/
def query_products : Query where
  patterns :=
    [⟨.var "sale", .val rdfType, .val (SALES "Sale")⟩,
     ⟨.var "sale", .val (SALES "productSold"), .var "product"⟩,
     ⟨.var "sale", .val (SALES "netRevenue"), .var "revenue"⟩,
     ⟨.var "sale", .val (SALES "quantity"), .var "quantity"⟩,
     ⟨.var "sale", .val (SALES "status"), .val (Value.str "Completed")⟩,
     ⟨.var "product", .val (SALES "productName"), .var "productName"⟩]
  filters := []
  groupBy := ["productName"]
  aggs := [("totalRevenue", .sum "revenue"), ("totalQuantity", .sum "quantity")]
  havingCountGT := none
  orderByDesc := some "totalRevenue"
  limit := some 5

/-- `query_customer_type` of `get_insights`: revenue by customer type. -/
def query_customer_type : Query where
  patterns :=
    [⟨.var "sale", .val rdfType, .val (SALES "Sale")⟩,
     ⟨.var "sale", .val (SALES "soldTo"), .var "customer"⟩,
     ⟨.var "sale", .val (SALES "netRevenue"), .var "revenue"⟩,
     ⟨.var "sale", .val (SALES "status"), .val (Value.str "Completed")⟩,
     ⟨.var "customer", .val (SALES "customerType"), .var "customerType"⟩]
  filters := []
  groupBy := ["customerType"]
  aggs := [("totalRevenue", .sum "revenue"), ("avgRevenue", .avg "revenue")]
  havingCountGT := none
  orderByDesc := some "totalRevenue"
  limit := none

/-- `query_product_customer_fit` of `get_reasoning_insights`:
product–customer affinity with `HAVING (COUNT(?sale) > 5)`. -/
def query_product_customer_fit : Query where
  patterns :=
    [⟨.var "sale", .val rdfType, .val (SALES "Sale")⟩,
     ⟨.var "sale", .val (SALES "soldTo"), .var "customer"⟩,
     ⟨.var "sale", .val (SALES "productSold"), .var "product"⟩,
     ⟨.var "sale", .val (SALES "netRevenue"), .var "revenue"⟩,
     ⟨.var "sale", .val (SALES "status"), .val (Value.str "Completed")⟩,
     ⟨.var "customer", .val (SALES "customerType"), .var "customerType"⟩,
     ⟨.var "product", .val (SALES "productName"), .var "productName"⟩,
     ⟨.var "product", .val (SALES "belongsToCategory"), .var "cat"⟩,
     ⟨.var "cat", .val (SALES "categoryName"), .var "category"⟩]
  filters := []
  groupBy := ["productName", "customerType", "category"]
  aggs := [("salesCount", .count), ("totalRevenue", .sum "revenue"), ("avgDeal", .avg "revenue")]
  havingCountGT := some 5
  orderByDesc := some "totalRevenue"
  limit := none

/-- The Python list comprehension around `query_product_customer_fit` keeps
only the first ten result rows (`if i < 10`). -/
def product_customer_fit_rows (g : List Triple) : Except String (List Row) :=
  (evalQuery query_product_customer_fit g).map (fun rows => rows.take 10)

/-- `query_regional_patterns` of `get_reasoning_insights`:
`HAVING (COUNT(?sale) > 3)`. -/
def query_regional_patterns : Query where
  patterns :=
    [⟨.var "sale", .val rdfType, .val (SALES "Sale")⟩,
     ⟨.var "sale", .val (SALES "soldTo"), .var "customer"⟩,
     ⟨.var "sale", .val (SALES "productSold"), .var "product"⟩,
     ⟨.var "sale", .val (SALES "netRevenue"), .var "revenue"⟩,
     ⟨.var "sale", .val (SALES "status"), .val (Value.str "Completed")⟩,
     ⟨.var "customer", .val (SALES "locatedIn"), .var "region"⟩,
     ⟨.var "customer", .val (SALES "belongsToIndustry"), .var "ind"⟩,
     ⟨.var "region", .val (SALES "regionName"), .var "regionName"⟩,
     ⟨.var "ind", .val (SALES "industryName"), .var "industry"⟩,
     ⟨.var "product", .val (SALES "productName"), .var "productName"⟩]
  filters := []
  groupBy := ["regionName", "industry", "productName"]
  aggs := [("salesCount", .count), ("revenue", .sum "revenue")]
  havingCountGT := some 3
  orderByDesc := some "revenue"
  limit := none

/-- `query_rep_effectiveness` of `get_reasoning_insights`. -/
def query_rep_effectiveness : Query where
  patterns :=
    [⟨.var "sale", .val rdfType, .val (SALES "Sale")⟩,
     ⟨.var "sale", .val (SALES "soldBy"), .var "rep"⟩,
     ⟨.var "sale", .val (SALES "netRevenue"), .var "revenue"⟩,
     ⟨.var "sale", .val (SALES "status"), .val (Value.str "Completed")⟩,
     ⟨.var "rep", .val (SALES "repName"), .var "repName"⟩,
     ⟨.var "rep", .val (SALES "experienceYears"), .var "experience"⟩,
     ⟨.var "rep", .val (SALES "operatesIn"), .var "region"⟩,
     ⟨.var "region", .val (SALES "regionName"), .var "regionName"⟩]
  filters := []
  groupBy := ["repName", "experience", "regionName"]
  aggs := [("salesCount", .count), ("totalRevenue", .sum "revenue"), ("avgDeal", .avg "revenue")]
  havingCountGT := none
  orderByDesc := some "avgDeal"
  limit := none

/-- `query_discount_patterns` of `get_reasoning_insights`, with
`FILTER(?discount > 0)`. -/
def query_discount_patterns : Query where
  patterns :=
    [⟨.var "sale", .val rdfType, .val (SALES "Sale")⟩,
     ⟨.var "sale", .val (SALES "soldTo"), .var "customer"⟩,
     ⟨.var "sale", .val (SALES "discountPercentage"), .var "discount"⟩,
     ⟨.var "sale", .val (SALES "netRevenue"), .var "revenue"⟩,
     ⟨.var "sale", .val (SALES "status"), .val (Value.str "Completed")⟩,
     ⟨.var "customer", .val (SALES "customerType"), .var "customerType"⟩]
  filters := [.gtNum "discount" (Frac.ofInt 0)]
  groupBy := ["customerType"]
  aggs := [("avgDiscount", .avg "discount"), ("avgRevenue", .avg "revenue"), ("salesCount", .count)]
  havingCountGT := none
  orderByDesc := none
  limit := none

/-- The two-pattern join-correctness test query of spec §8:
`(?s, soldTo, ?c), (?c, locatedIn, ?r)`. -/
def join_test_patterns : List TriplePattern :=
  [⟨.var "s", .val (SALES "soldTo"), .var "c"⟩,
   ⟨.var "c", .val (SALES "locatedIn"), .var "r"⟩]

/-! ## Predicates used by the statements -/

/-- Two stores hold the same set of triples. -/
def same_triples (s₁ s₂ : FactStore) : Prop :=
  ∀ t : Triple, t ∈ s₁ ↔ t ∈ s₂

/-- No triple of the store has the given subject. -/
def no_subject (s : FactStore) (u : Value) : Prop :=
  ∀ t ∈ s, t.subj ≠ u

/-- No binding tuple produced by the basic graph pattern binds `?sale` to
the given node — the node contributes to no group, count, sum or average of
the query. -/
def no_sale_binding (g : List Triple) (ps : List TriplePattern) (u : Value) : Prop :=
  ∀ b ∈ evalBGP g ps, lookupVar "sale" b ≠ some u

/-- The three region node Identifiers of the fixed list of `_add_regions`. -/
def region_node_uris : List Value :=
  [SALES "North_America", SALES "Europe", SALES "Asia"]

/-- The eight industry node Identifiers of the fixed list of
`_add_industries`. -/
def industry_node_uris : List Value :=
  [SALES "Technology", SALES "Consulting", SALES "Creative", SALES "Finance",
   SALES "Retail", SALES "Manufacturing", SALES "Healthcare", SALES "Education"]

/-- The ten category node Identifiers of the fixed table of
`_add_categories`. -/
def category_node_uris : List Value :=
  [SALES "Electronics", SALES "Computers", SALES "Accessories", SALES "Displays",
   SALES "Mobile_Devices", SALES "Furniture", SALES "Seating", SALES "Desks",
   SALES "Lighting", SALES "Storage"]

/-- A type assertion only ever makes one of the fixed hardcoded nodes a
Region, Industry or Category. -/
def taxonomy_subject_ok (t : Triple) : Prop :=
  (t.obj = SALES "Region" → t.subj ∈ region_node_uris) ∧
  (t.obj = SALES "Industry" → t.subj ∈ industry_node_uris) ∧
  (t.obj = SALES "Category" → t.subj ∈ category_node_uris)

instance (t : Triple) : Decidable (taxonomy_subject_ok t) := by
  unfold taxonomy_subject_ok
  infer_instance

/-- The value of a pattern slot under a binding. -/
def termVal (b : Binding) : Term → Option Value
  | .val c => some c
  | .var v => lookupVar v b

/-- Binding extension: every variable bound in the first tuple is bound to
the same value in the second. -/
def bindingExt (b b' : Binding) : Prop :=
  ∀ v y, lookupVar v b = some y → lookupVar v b' = some y

/-- A binding satisfies a pattern in a store: some store triple agrees with
the pattern slot values under the binding. -/
def patSat (g : List Triple) (b : Binding) (pat : TriplePattern) : Prop :=
  ∃ tr ∈ g, termVal b pat.s = some tr.subj ∧ termVal b pat.p = some tr.pred ∧
    termVal b pat.o = some tr.obj

/-! ## Concrete fixtures -/

/-- Product table for the concrete load scenarios. -/
def cx_products : List ProductRec :=
  [⟨"P001", "Laptop Pro 15", "Electronics", "Computers", Frac.ofInt 1300⟩]

/-- Customer table for the concrete load scenarios: `C999` is absent. -/
def cx_customers : List CustomerRec :=
  [⟨"C001", "Acme Corp", "Enterprise", "North America", "Technology"⟩]

/-- Sales-rep table for the concrete load scenarios. -/
def cx_reps : List RepRec :=
  [⟨"SR001", "John Smith", "North America", 5⟩]

/-- A transaction table whose single row references customer `C999`, which
does not occur in `cx_customers`. -/
def cx_df : List SaleRow :=
  [⟨"S001", "2024-01-15", "C999", "P001", "SR001", 2, Frac.ofInt 200, Frac.ofInt 190,
    Frac.ofInt 5, "Completed"⟩]

/-- A store with one group of six completed low-value sales (net revenue 1
each) of one product to one customer — six tuples, none of high value. -/
def c2_store : List Triple :=
  (["S1", "S2", "S3", "S4", "S5", "S6"]).flatMap (fun s =>
    [⟨SALES s, rdfType, SALES "Sale"⟩,
     ⟨SALES s, SALES "soldTo", SALES "C1"⟩,
     ⟨SALES s, SALES "productSold", SALES "P1"⟩,
     ⟨SALES s, SALES "netRevenue", Value.dec (Frac.ofInt 1)⟩,
     ⟨SALES s, SALES "status", Value.str "Completed"⟩])
  ++ [⟨SALES "C1", SALES "customerType", Value.str "SMB"⟩,
      ⟨SALES "P1", SALES "productName", Value.str "Widget"⟩,
      ⟨SALES "P1", SALES "belongsToCategory", SALES "Cat1"⟩,
      ⟨SALES "Cat1", SALES "categoryName", Value.str "Electronics"⟩]

/-- A store whose only sale has status `"Pending"`, with all supporting
entities present. -/
def c9_store : List Triple :=
  [⟨SALES "S1", rdfType, SALES "Sale"⟩,
   ⟨SALES "S1", SALES "soldTo", SALES "C1"⟩,
   ⟨SALES "S1", SALES "productSold", SALES "P1"⟩,
   ⟨SALES "S1", SALES "soldBy", SALES "R1"⟩,
   ⟨SALES "S1", SALES "netRevenue", Value.dec (Frac.ofInt 5)⟩,
   ⟨SALES "S1", SALES "quantity", Value.int 2⟩,
   ⟨SALES "S1", SALES "discountPercentage", Value.dec (Frac.ofInt 1)⟩,
   ⟨SALES "S1", SALES "status", Value.str "Pending"⟩,
   ⟨SALES "C1", SALES "customerType", Value.str "SMB"⟩,
   ⟨SALES "C1", SALES "locatedIn", SALES "North_America"⟩,
   ⟨SALES "C1", SALES "belongsToIndustry", SALES "Technology"⟩,
   ⟨SALES "North_America", SALES "regionName", Value.str "North America"⟩,
   ⟨SALES "Technology", SALES "industryName", Value.str "Technology"⟩,
   ⟨SALES "P1", SALES "productName", Value.str "Widget"⟩,
   ⟨SALES "P1", SALES "belongsToCategory", SALES "Cat1"⟩,
   ⟨SALES "Cat1", SALES "categoryName", Value.str "Electronics"⟩,
   ⟨SALES "R1", SALES "repName", Value.str "John"⟩,
   ⟨SALES "R1", SALES "experienceYears", Value.int 5⟩,
   ⟨SALES "R1", SALES "operatesIn", SALES "North_America"⟩]

/-- A minimal aggregate query requesting `SUM` over `?rev`. -/
def c4_query : Query where
  patterns := [⟨.var "x", .val (SALES "netRevenue"), .var "rev"⟩]
  filters := []
  groupBy := []
  aggs := [("total", .sum "rev")]
  havingCountGT := none
  orderByDesc := none
  limit := none

/-- A store whose only `netRevenue` value is a string literal, not a
numeric literal. -/
def c4_store : List Triple :=
  [⟨SALES "S1", SALES "netRevenue", Value.str "oops"⟩]

/-- A schema graph on which `Sale` is declared twice with two different
descriptions (a conflicting redeclaration). -/
def conflicting_class_graph : FactStore :=
  declare_class (declare_class FactStore.empty "Sale" "A sales transaction")
    "Sale" "Another description"

/-! ## Fact Store lemmas -/

theorem FactStore.mem_iff (s : FactStore) (t : Triple) :
    t ∈ s ↔ t ∈ s.triples := Iff.rfl

theorem FactStore.mem_insert (s : FactStore) (t t' : Triple) :
    t' ∈ s.insert t ↔ t' = t ∨ t' ∈ s := by
  unfold FactStore.insert
  by_cases h : t ∈ s.triples
  · simp only [if_pos h, FactStore.mem_iff]
    constructor
    · exact fun hm => Or.inr hm
    · rintro (rfl | hm)
      · exact h
      · exact hm
  · simp only [if_neg h, FactStore.mem_iff, List.mem_cons]

theorem FactStore.insert_of_mem (s : FactStore) (t : Triple) (h : t ∈ s) :
    s.insert t = s := by
  unfold FactStore.insert
  exact if_pos h

theorem FactStore.mem_insertAll (s : FactStore) (l : List Triple) (t : Triple) :
    t ∈ s.insertAll l ↔ t ∈ s ∨ t ∈ l := by
  induction l generalizing s with
  | nil => simp [FactStore.insertAll]
  | cons x xs ih =>
    simp only [FactStore.insertAll, List.foldl_cons] at *
    rw [ih (s.insert x)]
    rw [FactStore.mem_insert]
    constructor
    · rintro ((rfl | hs) | hx)
      · exact Or.inr (List.mem_cons_self _ _)
      · exact Or.inl hs
      · exact Or.inr (List.mem_cons_of_mem _ hx)
    · rintro (hs | hx)
      · exact Or.inl (Or.inr hs)
      · rcases List.mem_cons.mp hx with rfl | hx
        · exact Or.inl (Or.inl rfl)
        · exact Or.inr hx

/-- Claim C8: inserting a triple that is already present in the store is a
no-op: the resulting store equals the original (hence equal as a set of
triples) and the total distinct triple count `size` is unchanged — insertion
is idempotent. -/
theorem c8_insert_idempotent (s : FactStore) (t : Triple) (h : t ∈ s) :
    s.insert t = s ∧ (s.insert t).size = s.size ∧
      ((s.insert t).insert t = s.insert t) := by
  have he : s.insert t = s := s.insert_of_mem t h
  refine ⟨he, by rw [he], ?_⟩
  rw [he, he]

/-- Witness for C8 at a concrete store containing the triple. -/
theorem c8_insert_idempotent_witness :
    (Triple.mk (SALES "S1") rdfType (SALES "Sale")) ∈
        (FactStore.mk [Triple.mk (SALES "S1") rdfType (SALES "Sale")]) ∧
      ((FactStore.mk [Triple.mk (SALES "S1") rdfType (SALES "Sale")]).insert
          (Triple.mk (SALES "S1") rdfType (SALES "Sale")) =
        FactStore.mk [Triple.mk (SALES "S1") rdfType (SALES "Sale")]) :=
  ⟨by decide,
    (c8_insert_idempotent
      (FactStore.mk [Triple.mk (SALES "S1") rdfType (SALES "Sale")])
      (Triple.mk (SALES "S1") rdfType (SALES "Sale")) (by decide)).1⟩

theorem FactStore.not_mem_empty (t : Triple) : t ∉ FactStore.empty := by
  intro h
  exact List.not_mem_nil t h

theorem FactStore.insertAll_of_forall_mem (s : FactStore) (l : List Triple)
    (h : ∀ t ∈ l, t ∈ s) : s.insertAll l = s := by
  induction l generalizing s with
  | nil => rfl
  | cons x xs ih =>
    have hx : s.insert x = s := s.insert_of_mem x (h x (List.mem_cons_self _ _))
    simp only [FactStore.insertAll, List.foldl_cons] at *
    rw [hx]
    exact ih s (fun t ht => h t (List.mem_cons_of_mem _ ht))

/-- Membership in the knowledge-graph store is membership in the ontology
triple sequence or in the Loader's triple sequence. -/
theorem mem_knowledge_graph_store (df : List SaleRow) (ps : List ProductRec)
    (cs : List CustomerRec) (rs : List RepRec) (t : Triple) :
    t ∈ knowledge_graph_store df ps cs rs ↔
      t ∈ ontology_triples ∨ t ∈ load_sales_data df ps cs rs := by
  unfold knowledge_graph_store sales_ontology_graph
  rw [FactStore.mem_insertAll, FactStore.mem_insertAll]
  constructor
  · rintro ((he | ho) | hl)
    · exact absurd he (FactStore.not_mem_empty t)
    · rcases (FactStore.mem_insertAll FactStore.empty ontology_triples t).mp ho with he | ho
      · exact absurd he (FactStore.not_mem_empty t)
      · exact Or.inl ho
    · exact Or.inr hl
  · rintro (ho | hl)
    · exact Or.inl (Or.inr
        ((FactStore.mem_insertAll FactStore.empty ontology_triples t).mpr (Or.inr ho)))
    · exact Or.inr hl

/-! ## C1 — dangling references -/

/-- Claim C1 counterexample: loading a transaction that references customer
`C999`, absent from the customer table, does not fail — the load completes
and the resulting store holds the `soldTo` edge to `sales:C999` while no
triple describes `C999` (no `rdf:type`, nothing): the edge dangles. -/
theorem c1_dangling_reference_counterexample :
    Triple.mk (SALES "S001") (SALES "soldTo") (SALES "C999") ∈
        knowledge_graph_store cx_df cx_products cx_customers cx_reps ∧
      no_subject (knowledge_graph_store cx_df cx_products cx_customers cx_reps)
        (SALES "C999") := by
  constructor
  · rw [mem_knowledge_graph_store]
    right
    decide
  · intro t ht
    rw [mem_knowledge_graph_store] at ht
    rcases ht with ho | hl
    · revert ho
      revert t
      decide
    · revert hl
      revert t
      decide

/-- Claim C1 amended: the Loader performs no referential check at all — for
every input and every transaction row it emits the three object-property
edges formed directly from the row's id fields, whether or not any entity
with that Identifier is loaded, and the load never fails. -/
theorem c1_loader_emits_unchecked_edges (df : List SaleRow) (ps : List ProductRec)
    (cs : List CustomerRec) (rs : List RepRec) (row : SaleRow) (hrow : row ∈ df) :
    Triple.mk (SALES row.sale_id) (SALES "soldTo") (SALES row.customer_id) ∈
        load_sales_data df ps cs rs ∧
      Triple.mk (SALES row.sale_id) (SALES "productSold") (SALES row.product_id) ∈
        load_sales_data df ps cs rs ∧
      Triple.mk (SALES row.sale_id) (SALES "soldBy") (SALES row.sales_rep_id) ∈
        load_sales_data df ps cs rs := by
  have hmem : ∀ t ∈ sale_triples row, t ∈ load_sales_data df ps cs rs := by
    intro t ht
    unfold load_sales_data
    exact List.mem_append_right _ (List.mem_flatMap.mpr ⟨row, hrow, ht⟩)
  refine ⟨hmem _ ?_, hmem _ ?_, hmem _ ?_⟩ <;> simp [sale_triples]

/-- Witness for C1's amended theorem at the concrete dangling input. -/
theorem c1_loader_emits_unchecked_edges_witness :
    (⟨"S001", "2024-01-15", "C999", "P001", "SR001", 2, Frac.ofInt 200, Frac.ofInt 190,
        Frac.ofInt 5, "Completed"⟩ : SaleRow) ∈ cx_df ∧
      Triple.mk (SALES "S001") (SALES "soldTo") (SALES "C999") ∈
        load_sales_data cx_df cx_products cx_customers cx_reps :=
  ⟨by decide,
    (c1_loader_emits_unchecked_edges cx_df cx_products cx_customers cx_reps
      ⟨"S001", "2024-01-15", "C999", "P001", "SR001", 2, Frac.ofInt 200, Frac.ofInt 190,
        Frac.ofInt 5, "Completed"⟩ (by decide)).1⟩

/-! ## C5 — load determinism -/

/-- Claim C5: the Loader is a pure function of its tabular input (every
entity Identifier is derived from the row's key field), so two loads of
identical input produce the same triple sequence, and inserting that
sequence into a fresh store in any order yields the same store as a set of
triples: the loaded store is determined by the input alone, independent of
insertion order. -/
theorem c5_load_determinism (df : List SaleRow) (ps : List ProductRec)
    (cs : List CustomerRec) (rs : List RepRec) (l₁ l₂ : List Triple)
    (h₁ : l₁.Perm (load_sales_data df ps cs rs))
    (h₂ : l₂.Perm (load_sales_data df ps cs rs)) :
    same_triples (FactStore.empty.insertAll l₁) (FactStore.empty.insertAll l₂) := by
  intro t
  rw [FactStore.mem_insertAll, FactStore.mem_insertAll, h₁.mem_iff, h₂.mem_iff]

/-- Witness for C5: the canonical emission order and its reversal build the
same store from the concrete input. -/
theorem c5_load_determinism_witness :
    ((load_sales_data cx_df cx_products cx_customers cx_reps).reverse.Perm
        (load_sales_data cx_df cx_products cx_customers cx_reps)) ∧
      same_triples
        (FactStore.empty.insertAll
          (load_sales_data cx_df cx_products cx_customers cx_reps).reverse)
        (FactStore.empty.insertAll
          (load_sales_data cx_df cx_products cx_customers cx_reps)) :=
  ⟨List.reverse_perm _,
    c5_load_determinism cx_df cx_products cx_customers cx_reps _ _
      (List.reverse_perm _) (List.Perm.refl _)⟩

/-! ## C10 — subclass fallback on unrecognized discriminants -/

/-- Claim C10: the Loader falls back rather than fails on an unrecognized
discriminant — a customer whose type is neither `Enterprise` nor `SMB` is
asserted to be a `MidMarketCustomer`, and a product whose category is not
`Electronics` is asserted to be a `FurnitureProduct` (both loop bodies are
total: no discriminant value is rejected). -/
theorem c10_discriminant_fallback :
    (∀ c : CustomerRec, c.type ≠ "Enterprise" → c.type ≠ "SMB" →
        Triple.mk (SALES c.id) rdfType (SALES "MidMarketCustomer") ∈
          customer_triples c) ∧
      (∀ p : ProductRec, p.category ≠ "Electronics" →
        Triple.mk (SALES p.id) rdfType (SALES "FurnitureProduct") ∈
          product_triples p) := by
  constructor
  · intro c h1 h2
    unfold customer_triples
    rw [if_neg h1, if_neg h2]
    exact List.mem_append_left _ (List.mem_singleton.mpr rfl)
  · intro p h1
    unfold product_triples
    rw [if_neg h1]
    exact List.mem_append_left _ (List.mem_singleton.mpr rfl)

/-- Witness for C10 at a customer of type `"Midsize"` and a product of
category `"Toys"`. -/
theorem c10_discriminant_fallback_witness :
    (("Midsize" : String) ≠ "Enterprise" ∧ ("Midsize" : String) ≠ "SMB" ∧
        Triple.mk (SALES "C100") rdfType (SALES "MidMarketCustomer") ∈
          customer_triples ⟨"C100", "X Corp", "Midsize", "Europe", "Retail"⟩) ∧
      (("Toys" : String) ≠ "Electronics" ∧
        Triple.mk (SALES "P100") rdfType (SALES "FurnitureProduct") ∈
          product_triples ⟨"P100", "Blocks", "Toys", "Sets", Frac.ofInt 10⟩) :=
  ⟨⟨by decide, by decide,
      c10_discriminant_fallback.1 ⟨"C100", "X Corp", "Midsize", "Europe", "Retail"⟩
        (by decide) (by decide)⟩,
    ⟨by decide,
      c10_discriminant_fallback.2 ⟨"P100", "Blocks", "Toys", "Sets", Frac.ofInt 10⟩
        (by decide)⟩⟩

/-! ## C7 — schema redeclaration -/

/-- Claim C7 counterexample: re-declaring the class `Sale` with a different
description raises no error — the construction completes and the schema
graph ends up holding both comment triples side by side, instead of failing
with a `SchemaConflict`. -/
theorem c7_schema_conflict_counterexample :
    Triple.mk (SALES "Sale") rdfsComment (Value.str "A sales transaction") ∈
        conflicting_class_graph ∧
      Triple.mk (SALES "Sale") rdfsComment (Value.str "Another description") ∈
        conflicting_class_graph := by
  constructor <;> decide

/-- Claim C7 amended: re-declaring a class or property with identical
attributes is a no-op (set semantics of the schema graph), but re-declaring
with different attributes is not an error — the declaration succeeds and the
graph silently accumulates both attribute sets. -/
theorem c7_redeclaration_behaviour :
    (∀ (g : FactStore) (n d : String),
        declare_class (declare_class g n d) n d = declare_class g n d) ∧
      (∀ (g : FactStore) (n dom rng d : String),
        declare_object_property (declare_object_property g n dom rng d) n dom rng d =
          declare_object_property g n dom rng d) ∧
      (∀ (g : FactStore) (n dom : String) (rng : Value) (d : String),
        declare_data_property (declare_data_property g n dom rng d) n dom rng d =
          declare_data_property g n dom rng d) ∧
      (Triple.mk (SALES "Sale") rdfsComment (Value.str "A sales transaction") ∈
          conflicting_class_graph ∧
        Triple.mk (SALES "Sale") rdfsComment (Value.str "Another description") ∈
          conflicting_class_graph) := by
  refine ⟨?_, ?_, ?_, by decide, by decide⟩
  · intro g n d
    apply FactStore.insertAll_of_forall_mem
    intro t ht
    exact (FactStore.mem_insertAll g _ t).mpr (Or.inr ht)
  · intro g n dom rng d
    apply FactStore.insertAll_of_forall_mem
    intro t ht
    exact (FactStore.mem_insertAll g _ t).mpr (Or.inr ht)
  · intro g n dom rng d
    apply FactStore.insertAll_of_forall_mem
    intro t ht
    exact (FactStore.mem_insertAll g _ t).mpr (Or.inr ht)

/-! ## C6 — taxonomy nodes -/

theorem SALES_inj {a b : String} (h : SALES a = SALES b) : a = b := by
  unfold SALES at h
  have h2 := Value.uri.inj h
  have h3 : ("http://example.org/sales#".data ++ a.data) =
      ("http://example.org/sales#".data ++ b.data) := by
    have := congrArg String.data h2
    rwa [String.data_append, String.data_append] at this
  have h4 := List.append_cancel_left h3
  cases a
  cases b
  exact congrArg String.mk h4

theorem SALES_ne_rdfType (x : String) : SALES x ≠ rdfType := by
  intro h
  unfold SALES rdfType at h
  have h2 := Value.uri.inj h
  have h3 := congrArg String.data h2
  rw [String.data_append] at h3
  have h4 := congrArg (List.take 25) h3
  rw [List.take_left' (by decide)] at h4
  revert h4
  decide

theorem taxonomy_ok_of_pred_ne (t : Triple) (u : Value) (h : t.pred = u)
    (hne : ¬(u = rdfType)) (hp : t.pred = rdfType) : taxonomy_subject_ok t :=
  absurd (h.symm.trans hp) hne

theorem taxonomy_ok_of_obj_local (t : Triple) (x : String) (h : t.obj = SALES x)
    (hR : x ≠ "Region") (hI : x ≠ "Industry") (hC : x ≠ "Category") :
    taxonomy_subject_ok t := by
  refine ⟨fun hh => ?_, fun hh => ?_, fun hh => ?_⟩
  · exact absurd (SALES_inj (h.symm.trans hh)) hR
  · exact absurd (SALES_inj (h.symm.trans hh)) hI
  · exact absurd (SALES_inj (h.symm.trans hh)) hC

theorem add_regions_taxonomy_ok :
    ∀ t ∈ add_regions, t.pred = rdfType → taxonomy_subject_ok t := by decide

theorem add_industries_taxonomy_ok :
    ∀ t ∈ add_industries, t.pred = rdfType → taxonomy_subject_ok t := by decide

theorem add_categories_taxonomy_ok :
    ∀ t ∈ add_categories, t.pred = rdfType → taxonomy_subject_ok t := by decide

theorem ontology_taxonomy_ok :
    ∀ t ∈ ontology_triples, t.pred = rdfType → taxonomy_subject_ok t := by decide

theorem product_taxonomy_ok (p : ProductRec) (t : Triple)
    (ht : t ∈ product_triples p) (hp : t.pred = rdfType) : taxonomy_subject_ok t := by
  unfold product_triples at ht
  by_cases hc : p.category = "Electronics" <;>
    [rw [if_pos hc] at ht; rw [if_neg hc] at ht] <;>
  · simp only [List.cons_append, List.nil_append, List.mem_cons,
      List.not_mem_nil, or_false] at ht
    rcases ht with rfl | rfl | rfl | rfl | rfl | rfl
    all_goals first
      | exact taxonomy_ok_of_pred_ne _ _ rfl (SALES_ne_rdfType _) hp
      | exact taxonomy_ok_of_obj_local _ _ rfl (by decide) (by decide) (by decide)

theorem customer_taxonomy_ok (c : CustomerRec) (t : Triple)
    (ht : t ∈ customer_triples c) (hp : t.pred = rdfType) : taxonomy_subject_ok t := by
  unfold customer_triples at ht
  by_cases h1 : c.type = "Enterprise"
  · rw [if_pos h1] at ht
    simp only [List.cons_append, List.nil_append, List.mem_cons,
      List.not_mem_nil, or_false] at ht
    rcases ht with rfl | rfl | rfl | rfl | rfl | rfl
    all_goals first
      | exact taxonomy_ok_of_pred_ne _ _ rfl (SALES_ne_rdfType _) hp
      | exact taxonomy_ok_of_obj_local _ _ rfl (by decide) (by decide) (by decide)
  · rw [if_neg h1] at ht
    by_cases h2 : c.type = "SMB"
    · rw [if_pos h2] at ht
      simp only [List.cons_append, List.nil_append, List.mem_cons,
        List.not_mem_nil, or_false] at ht
      rcases ht with rfl | rfl | rfl | rfl | rfl | rfl
      all_goals first
        | exact taxonomy_ok_of_pred_ne _ _ rfl (SALES_ne_rdfType _) hp
        | exact taxonomy_ok_of_obj_local _ _ rfl (by decide) (by decide) (by decide)
    · rw [if_neg h2] at ht
      simp only [List.cons_append, List.nil_append, List.mem_cons,
        List.not_mem_nil, or_false] at ht
      rcases ht with rfl | rfl | rfl | rfl | rfl | rfl
      all_goals first
        | exact taxonomy_ok_of_pred_ne _ _ rfl (SALES_ne_rdfType _) hp
        | exact taxonomy_ok_of_obj_local _ _ rfl (by decide) (by decide) (by decide)

theorem rep_taxonomy_ok (r : RepRec) (t : Triple)
    (ht : t ∈ sales_rep_triples r) (hp : t.pred = rdfType) : taxonomy_subject_ok t := by
  unfold sales_rep_triples at ht
  simp only [List.mem_cons, List.not_mem_nil, or_false] at ht
  rcases ht with rfl | rfl | rfl | rfl | rfl
  all_goals first
    | exact taxonomy_ok_of_pred_ne _ _ rfl (SALES_ne_rdfType _) hp
    | exact taxonomy_ok_of_obj_local _ _ rfl (by decide) (by decide) (by decide)

theorem sale_taxonomy_ok (row : SaleRow) (t : Triple)
    (ht : t ∈ sale_triples row) (hp : t.pred = rdfType) : taxonomy_subject_ok t := by
  unfold sale_triples at ht
  simp only [List.mem_cons, List.not_mem_nil, or_false] at ht
  rcases ht with rfl | rfl | rfl | rfl | rfl | rfl | rfl | rfl | rfl | rfl | rfl
  all_goals first
    | exact taxonomy_ok_of_pred_ne _ _ rfl (SALES_ne_rdfType _) hp
    | exact taxonomy_ok_of_obj_local _ _ rfl (by decide) (by decide) (by decide)

theorem mem_load_of_mem_regions (df : List SaleRow) (ps : List ProductRec)
    (cs : List CustomerRec) (rs : List RepRec) {t : Triple} (h : t ∈ add_regions) :
    t ∈ load_sales_data df ps cs rs := by
  unfold load_sales_data
  exact List.mem_append_left _ (List.mem_append_left _ (List.mem_append_left _
    (List.mem_append_left _ (List.mem_append_left _ (List.mem_append_left _ h)))))

theorem mem_load_of_mem_industries (df : List SaleRow) (ps : List ProductRec)
    (cs : List CustomerRec) (rs : List RepRec) {t : Triple} (h : t ∈ add_industries) :
    t ∈ load_sales_data df ps cs rs := by
  unfold load_sales_data
  exact List.mem_append_left _ (List.mem_append_left _ (List.mem_append_left _
    (List.mem_append_left _ (List.mem_append_left _ (List.mem_append_right _ h)))))

theorem mem_load_of_mem_categories (df : List SaleRow) (ps : List ProductRec)
    (cs : List CustomerRec) (rs : List RepRec) {t : Triple} (h : t ∈ add_categories) :
    t ∈ load_sales_data df ps cs rs := by
  unfold load_sales_data
  exact List.mem_append_left _ (List.mem_append_left _ (List.mem_append_left _
    (List.mem_append_left _ (List.mem_append_right _ h))))

/-- Claim C6 counterexample: with a completely empty tabular input (no
records at all, so no region or industry value occurs in the input), the
loaded store still holds the `North America` Region node and the
`Technology` Industry node — the taxonomy nodes come from fixed lists in the
loader, not from the distinct values observed in the input. -/
theorem c6_taxonomy_counterexample :
    Triple.mk (SALES "North_America") rdfType (SALES "Region") ∈
        knowledge_graph_store [] [] [] [] ∧
      Triple.mk (SALES "Technology") rdfType (SALES "Industry") ∈
        knowledge_graph_store [] [] [] [] := by
  constructor
  · rw [mem_knowledge_graph_store]
    right
    decide
  · rw [mem_knowledge_graph_store]
    right
    decide

/-- Claim C6 amended: during every load the Region, Industry and Category
taxonomy nodes are emitted once per value of the loader's fixed hardcoded
lists (three regions, eight industries, two categories with eight
subcategories), independent of the input records: every node typed Region /
Industry / Category in the loaded store is one of those fixed nodes, and all
of the fixed nodes are present. -/
theorem c6_taxonomy_hardcoded :
    (∀ (df : List SaleRow) (ps : List ProductRec) (cs : List CustomerRec)
        (rs : List RepRec) (t : Triple), t ∈ knowledge_graph_store df ps cs rs →
        t.pred = rdfType → taxonomy_subject_ok t) ∧
      (∀ (df : List SaleRow) (ps : List ProductRec) (cs : List CustomerRec)
        (rs : List RepRec), ∀ u ∈ region_node_uris,
        Triple.mk u rdfType (SALES "Region") ∈ knowledge_graph_store df ps cs rs) ∧
      (∀ (df : List SaleRow) (ps : List ProductRec) (cs : List CustomerRec)
        (rs : List RepRec), ∀ u ∈ industry_node_uris,
        Triple.mk u rdfType (SALES "Industry") ∈ knowledge_graph_store df ps cs rs) ∧
      (∀ (df : List SaleRow) (ps : List ProductRec) (cs : List CustomerRec)
        (rs : List RepRec), ∀ u ∈ category_node_uris,
        Triple.mk u rdfType (SALES "Category") ∈ knowledge_graph_store df ps cs rs) := by
  refine ⟨?_, ?_, ?_, ?_⟩
  · intro df ps cs rs t ht hp
    rw [mem_knowledge_graph_store] at ht
    rcases ht with ho | hl
    · exact ontology_taxonomy_ok t ho hp
    · unfold load_sales_data at hl
      simp only [List.mem_append] at hl
      rcases hl with ((((((h | h) | h) | h) | h) | h) | h)
      · exact add_regions_taxonomy_ok t h hp
      · exact add_industries_taxonomy_ok t h hp
      · exact add_categories_taxonomy_ok t h hp
      · rcases List.mem_flatMap.mp h with ⟨p, _, hm⟩
        exact product_taxonomy_ok p t hm hp
      · rcases List.mem_flatMap.mp h with ⟨c, _, hm⟩
        exact customer_taxonomy_ok c t hm hp
      · rcases List.mem_flatMap.mp h with ⟨r, _, hm⟩
        exact rep_taxonomy_ok r t hm hp
      · rcases List.mem_flatMap.mp h with ⟨row, _, hm⟩
        exact sale_taxonomy_ok row t hm hp
  · intro df ps cs rs u hu
    rw [mem_knowledge_graph_store]
    right
    apply mem_load_of_mem_regions
    fin_cases hu <;> decide
  · intro df ps cs rs u hu
    rw [mem_knowledge_graph_store]
    right
    apply mem_load_of_mem_industries
    fin_cases hu <;> decide
  · intro df ps cs rs u hu
    rw [mem_knowledge_graph_store]
    right
    apply mem_load_of_mem_categories
    fin_cases hu <;> decide

/-- Witness for C6's amended theorem: the North America Region node of the
concrete loaded store is one of the three fixed region nodes. -/
theorem c6_taxonomy_hardcoded_witness :
    Triple.mk (SALES "North_America") rdfType (SALES "Region") ∈
        knowledge_graph_store cx_df cx_products cx_customers cx_reps ∧
      taxonomy_subject_ok (Triple.mk (SALES "North_America") rdfType (SALES "Region")) :=
  ⟨(mem_knowledge_graph_store cx_df cx_products cx_customers cx_reps _).mpr
      (Or.inr (mem_load_of_mem_regions cx_df cx_products cx_customers cx_reps
        (by decide))),
    c6_taxonomy_hardcoded.1 cx_df cx_products cx_customers cx_reps _
      ((mem_knowledge_graph_store cx_df cx_products cx_customers cx_reps _).mpr
        (Or.inr (mem_load_of_mem_regions cx_df cx_products cx_customers cx_reps
          (by decide)))) rfl⟩

/-! ## Query Engine lemmas -/

theorem lookupVar_cons (w : String) (x : Value) (b : Binding) (v : String) :
    lookupVar v ((w, x) :: b) = if w = v then some x else lookupVar v b := rfl

theorem matchTerm_some_val {c x : Value} {b b' : Binding}
    (h : matchTerm (.val c) x b = some b') : c = x ∧ b' = b := by
  simp only [matchTerm] at h
  by_cases hc : c = x
  · rw [if_pos hc] at h
    exact ⟨hc, (Option.some.inj h).symm⟩
  · rw [if_neg hc] at h
    cases h

theorem matchTerm_some_var {w : String} {x : Value} {b b' : Binding}
    (h : matchTerm (.var w) x b = some b') :
    (lookupVar w b = some x ∧ b' = b) ∨
      (lookupVar w b = none ∧ b' = (w, x) :: b) := by
  simp only [matchTerm] at h
  cases hw : lookupVar w b with
  | none =>
    simp only [hw] at h
    exact Or.inr ⟨rfl, (Option.some.inj h).symm⟩
  | some y =>
    simp only [hw] at h
    by_cases hy : y = x
    · rw [if_pos hy] at h
      exact Or.inl ⟨by rw [hy], (Option.some.inj h).symm⟩
    · rw [if_neg hy] at h
      cases h

theorem matchTerm_preserves {t : Term} {x : Value} {b b' : Binding}
    (h : matchTerm t x b = some b') : bindingExt b b' := by
  intro v y hv
  cases t with
  | val c =>
    rcases matchTerm_some_val h with ⟨-, rfl⟩
    exact hv
  | var w =>
    rcases matchTerm_some_var h with ⟨-, rfl⟩ | ⟨hw, rfl⟩
    · exact hv
    · rw [lookupVar_cons]
      by_cases hwv : w = v
      · rw [hwv] at hw
        rw [hv] at hw
        cases hw
      · rw [if_neg hwv]
        exact hv

theorem matchTerm_binds {t : Term} {x : Value} {b b' : Binding}
    (h : matchTerm t x b = some b') : termVal b' t = some x := by
  cases t with
  | val c =>
    rcases matchTerm_some_val h with ⟨rfl, rfl⟩
    rfl
  | var w =>
    rcases matchTerm_some_var h with ⟨hw, rfl⟩ | ⟨-, rfl⟩
    · exact hw
    · show lookupVar w ((w, x) :: b) = some x
      rw [lookupVar_cons, if_pos rfl]

theorem bindingExt_refl (b : Binding) : bindingExt b b := fun _ _ h => h

theorem bindingExt_trans {a b c : Binding} (h₁ : bindingExt a b)
    (h₂ : bindingExt b c) : bindingExt a c :=
  fun v y hv => h₂ v y (h₁ v y hv)

theorem termVal_mono {b b' : Binding} (he : bindingExt b b') {t : Term} {x : Value}
    (h : termVal b t = some x) : termVal b' t = some x := by
  cases t with
  | val c => exact h
  | var w => exact he w x h

theorem matchPattern_parts {pat : TriplePattern} {tr : Triple} {b b' : Binding}
    (h : matchPattern pat tr b = some b') :
    ∃ b₁ b₂, matchTerm pat.s tr.subj b = some b₁ ∧
      matchTerm pat.p tr.pred b₁ = some b₂ ∧ matchTerm pat.o tr.obj b₂ = some b' := by
  unfold matchPattern at h
  cases h1 : matchTerm pat.s tr.subj b with
  | none =>
    simp only [h1, Option.none_bind] at h
    exact Option.noConfusion h
  | some b₁ =>
    simp only [h1, Option.some_bind] at h
    cases h2 : matchTerm pat.p tr.pred b₁ with
    | none =>
      simp only [h2, Option.none_bind] at h
      exact Option.noConfusion h
    | some b₂ =>
      simp only [h2, Option.some_bind] at h
      exact ⟨b₁, b₂, rfl, h2, h⟩

theorem matchPattern_ext {pat : TriplePattern} {tr : Triple} {b b' : Binding}
    (h : matchPattern pat tr b = some b') : bindingExt b b' := by
  rcases matchPattern_parts h with ⟨b₁, b₂, h1, h2, h3⟩
  exact bindingExt_trans (matchTerm_preserves h1)
    (bindingExt_trans (matchTerm_preserves h2) (matchTerm_preserves h3))

theorem matchPattern_sat {pat : TriplePattern} {tr : Triple} {b b' : Binding}
    (h : matchPattern pat tr b = some b') :
    termVal b' pat.s = some tr.subj ∧ termVal b' pat.p = some tr.pred ∧
      termVal b' pat.o = some tr.obj := by
  rcases matchPattern_parts h with ⟨b₁, b₂, h1, h2, h3⟩
  refine ⟨?_, ?_, matchTerm_binds h3⟩
  · exact termVal_mono (bindingExt_trans (matchTerm_preserves h2)
      (matchTerm_preserves h3)) (matchTerm_binds h1)
  · exact termVal_mono (matchTerm_preserves h3) (matchTerm_binds h2)

theorem mem_evalPattern {g : List Triple} {pat : TriplePattern} {b b₁ : Binding} :
    b₁ ∈ evalPattern g pat b ↔ ∃ tr ∈ g, matchPattern pat tr b = some b₁ := by
  unfold evalPattern
  rw [List.mem_filterMap]

theorem evalBGPFrom_ext {g : List Triple} {ps : List TriplePattern} :
    ∀ {bs : List Binding} {b : Binding}, b ∈ evalBGPFrom g bs ps →
      ∃ b₀ ∈ bs, bindingExt b₀ b := by
  induction ps with
  | nil =>
    intro bs b hb
    exact ⟨b, hb, bindingExt_refl b⟩
  | cons pat ps ih =>
    intro bs b hb
    rcases @ih (bs.flatMap (evalPattern g pat)) b hb with ⟨b₁, hb₁, hext⟩
    rcases List.mem_flatMap.mp hb₁ with ⟨b₀, hb₀, hb₁m⟩
    rcases mem_evalPattern.mp hb₁m with ⟨tr, -, hm⟩
    exact ⟨b₀, hb₀, bindingExt_trans (matchPattern_ext hm) hext⟩

theorem evalBGPFrom_sound {g : List Triple} {ps : List TriplePattern} :
    ∀ {bs : List Binding} {b : Binding}, b ∈ evalBGPFrom g bs ps →
      ∀ pat ∈ ps, patSat g b pat := by
  induction ps with
  | nil =>
    intro bs b _ pat hpat
    exact absurd hpat (List.not_mem_nil pat)
  | cons pat' ps ih =>
    intro bs b hb pat hpat
    rcases List.mem_cons.mp hpat with rfl | hmem
    · rcases @evalBGPFrom_ext g ps (bs.flatMap (evalPattern g pat)) b hb with
        ⟨b₁, hb₁, hext⟩
      rcases List.mem_flatMap.mp hb₁ with ⟨b₀, -, hb₁m⟩
      rcases mem_evalPattern.mp hb₁m with ⟨tr, htr, hm⟩
      rcases matchPattern_sat hm with ⟨h1, h2, h3⟩
      exact ⟨tr, htr, termVal_mono hext h1, termVal_mono hext h2, termVal_mono hext h3⟩
    · exact @ih (bs.flatMap (evalPattern g pat')) b hb pat hmem

/-- Soundness of the pattern evaluator: every output binding tuple satisfies
every pattern of the basic graph pattern on some store triple. -/
theorem evalBGP_sound {g : List Triple} {ps : List TriplePattern} {b : Binding}
    (hb : b ∈ evalBGP g ps) : ∀ pat ∈ ps, patSat g b pat :=
  evalBGPFrom_sound hb

/-- A binding produced by a pattern list containing the
`?sale sales:status "Completed"` pattern can only bind `?sale` to a node
whose `status` triple with object `"Completed"` is in the store. -/
theorem status_completed_of_binding {g : List Triple} {ps : List TriplePattern}
    {b : Binding} {u : Value}
    (hpat : (⟨.var "sale", .val (SALES "status"),
        .val (Value.str "Completed")⟩ : TriplePattern) ∈ ps)
    (hb : b ∈ evalBGP g ps) (hs : lookupVar "sale" b = some u) :
    Triple.mk u (SALES "status") (Value.str "Completed") ∈ g := by
  rcases evalBGP_sound hb _ hpat with ⟨tr, htr, h1, h2, h3⟩
  have hsub : tr.subj = u := Option.some.inj (h1.symm.trans hs)
  have hpred : tr.pred = SALES "status" := (Option.some.inj h2).symm
  have hobj : tr.obj = Value.str "Completed" := (Option.some.inj h3).symm
  have heq : Triple.mk u (SALES "status") (Value.str "Completed") = tr := by
    cases tr
    subst hsub hpred hobj
    rfl
  rw [heq]
  exact htr

/-! ## C9 — catalogue entries only consume Completed sales -/

/-- Claim C9: every catalogue entry's basic graph pattern contains the
`?sale sales:status "Completed"` constraint, so, in every store, a sale node
without a `status "Completed"` triple (e.g. one whose status is `"Pending"`
or `"Cancelled"`) is bound by no binding tuple of any of the seven catalogue
queries — it contributes to no returned row, count, sum or average. -/
theorem c9_status_filter (g : List Triple) (u : Value)
    (hno : Triple.mk u (SALES "status") (Value.str "Completed") ∉ g) :
    no_sale_binding g query_region.patterns u ∧
      no_sale_binding g query_products.patterns u ∧
      no_sale_binding g query_customer_type.patterns u ∧
      no_sale_binding g query_product_customer_fit.patterns u ∧
      no_sale_binding g query_regional_patterns.patterns u ∧
      no_sale_binding g query_rep_effectiveness.patterns u ∧
      no_sale_binding g query_discount_patterns.patterns u := by
  refine ⟨?_, ?_, ?_, ?_, ?_, ?_, ?_⟩ <;>
  · intro b hb hs
    exact hno (status_completed_of_binding (by decide) hb hs)

/-- Witness for C9: the sale `S1` of the concrete store has status
`"Pending"` and is bound by no tuple of the revenue-by-region entry. -/
theorem c9_status_filter_witness :
    Triple.mk (SALES "S1") (SALES "status") (Value.str "Completed") ∉ c9_store ∧
      no_sale_binding c9_store query_region.patterns (SALES "S1") :=
  ⟨by decide, (c9_status_filter c9_store (SALES "S1") (by decide)).1⟩

/-! ## C3 — join correctness -/

theorem evalBGP_join_test (g : List Triple) :
    evalBGP g join_test_patterns =
      (evalPattern g ⟨.var "s", .val (SALES "soldTo"), .var "c"⟩ []).flatMap
        (evalPattern g ⟨.var "c", .val (SALES "locatedIn"), .var "r"⟩) := by
  simp only [join_test_patterns, evalBGP, evalBGPFrom, List.flatMap_cons,
    List.flatMap_nil, List.append_nil]

theorem match_p1_inv (tr : Triple) (b' : Binding)
    (h : matchPattern ⟨.var "s", .val (SALES "soldTo"), .var "c"⟩ tr [] = some b') :
    tr.pred = SALES "soldTo" ∧ b' = [("c", tr.obj), ("s", tr.subj)] := by
  rcases matchPattern_parts h with ⟨b₁, b₂, h1, h2, h3⟩
  rcases matchTerm_some_var h1 with ⟨hl, rfl⟩ | ⟨-, rfl⟩
  · exact Option.noConfusion hl
  · rcases matchTerm_some_val h2 with ⟨hp, rfl⟩
    rcases matchTerm_some_var h3 with ⟨hl3, rfl⟩ | ⟨-, rfl⟩
    · exact Option.noConfusion hl3
    · exact ⟨hp.symm, rfl⟩

theorem match_p2_inv (tr : Triple) (co so : Value) (b' : Binding)
    (h : matchPattern ⟨.var "c", .val (SALES "locatedIn"), .var "r"⟩ tr
        [("c", co), ("s", so)] = some b') :
    tr.subj = co ∧ tr.pred = SALES "locatedIn" ∧
      b' = [("r", tr.obj), ("c", co), ("s", so)] := by
  rcases matchPattern_parts h with ⟨b₁, b₂, h1, h2, h3⟩
  rcases matchTerm_some_var h1 with ⟨hl, rfl⟩ | ⟨hl, rfl⟩
  · have hco : co = tr.subj := Option.some.inj hl
    rcases matchTerm_some_val h2 with ⟨hp, rfl⟩
    rcases matchTerm_some_var h3 with ⟨hl3, rfl⟩ | ⟨-, rfl⟩
    · exact Option.noConfusion hl3
    · exact ⟨hco.symm, hp.symm, rfl⟩
  · exact Option.noConfusion hl

theorem match_p1_eval (sv cv : Value) :
    matchPattern ⟨.var "s", .val (SALES "soldTo"), .var "c"⟩
      (Triple.mk sv (SALES "soldTo") cv) [] = some [("c", cv), ("s", sv)] := rfl

theorem match_p2_eval (sv cv rv : Value) :
    matchPattern ⟨.var "c", .val (SALES "locatedIn"), .var "r"⟩
      (Triple.mk cv (SALES "locatedIn") rv) [("c", cv), ("s", sv)] =
      some [("r", rv), ("c", cv), ("s", sv)] := by
  have hx : matchTerm (.var "c") cv [("c", cv), ("s", sv)] =
      some [("c", cv), ("s", sv)] := by
    show (if cv = cv then some [("c", cv), ("s", sv)] else none) =
      some [("c", cv), ("s", sv)]
    rw [if_pos rfl]
  show (matchTerm (.var "c") cv [("c", cv), ("s", sv)]).bind _ = _
  rw [hx]
  rfl

/-- Claim C3: spec-§8 join correctness for the two-pattern query
`(?s, soldTo, ?c), (?c, locatedIn, ?r)` — a pair `(sv, rv)` is produced by
the evaluator exactly when some customer node `cv` links them through an
actual `soldTo` and `locatedIn` triple of the store (soundness and
completeness of the inner join). -/
theorem c3_join_correctness (g : List Triple) (sv rv : Value) :
    (∃ b ∈ evalBGP g join_test_patterns,
        lookupVar "s" b = some sv ∧ lookupVar "r" b = some rv) ↔
      ∃ cv : Value, Triple.mk sv (SALES "soldTo") cv ∈ g ∧
        Triple.mk cv (SALES "locatedIn") rv ∈ g := by
  constructor
  · rintro ⟨b, hb, hs, hr⟩
    rw [evalBGP_join_test] at hb
    rcases List.mem_flatMap.mp hb with ⟨b₁, hb₁, hb₂⟩
    rcases mem_evalPattern.mp hb₁ with ⟨t1, ht1, hm1⟩
    rcases match_p1_inv t1 b₁ hm1 with ⟨hp1, rfl⟩
    rcases mem_evalPattern.mp hb₂ with ⟨t2, ht2, hm2⟩
    rcases match_p2_inv t2 t1.obj t1.subj b hm2 with ⟨hsub2, hp2, rfl⟩
    have hsv : t1.subj = sv := Option.some.inj hs
    have hrv : t2.obj = rv := Option.some.inj hr
    refine ⟨t1.obj, ?_, ?_⟩
    · have heq : Triple.mk sv (SALES "soldTo") t1.obj = t1 := by
        cases t1
        cases hsv
        cases hp1
        rfl
      rw [heq]
      exact ht1
    · have heq : Triple.mk t1.obj (SALES "locatedIn") rv = t2 := by
        cases t2
        cases hsub2
        cases hp2
        cases hrv
        rfl
      rw [heq]
      exact ht2
  · rintro ⟨cv, h1, h2⟩
    refine ⟨[("r", rv), ("c", cv), ("s", sv)], ?_, rfl, rfl⟩
    rw [evalBGP_join_test]
    exact List.mem_flatMap.mpr ⟨[("c", cv), ("s", sv)],
      mem_evalPattern.mpr ⟨_, h1, match_p1_eval sv cv⟩,
      mem_evalPattern.mpr ⟨_, h2, match_p2_eval sv cv rv⟩⟩

/-! ## C2 — HAVING is post-aggregation -/

/-- Claim C2: the `HAVING (COUNT(?sale) > 5)` threshold of the
product–customer affinity entry filters whole groups by their group-level
tuple count after grouping and aggregation — and on a store whose only group
consists of six low-value tuples (no high-value tuple at all) the group
still appears in the final result with its full count of 6. -/
theorem c2_having_post_aggregation :
    (∀ (rows : List AggRow) (r : AggRow),
        r ∈ applyHaving query_product_customer_fit rows ↔
          r ∈ rows ∧ 5 < r.1.2.length) ∧
      product_customer_fit_rows c2_store =
        Except.ok [[("productName", some (Value.str "Widget")),
          ("customerType", some (Value.str "SMB")),
          ("category", some (Value.str "Electronics")),
          ("salesCount", some (Value.int 6)),
          ("totalRevenue", some (Value.dec (Frac.ofInt 6))),
          ("avgDeal", some (Value.dec (Frac.ofInt 1)))]] := by
  constructor
  · intro rows r
    show r ∈ rows.filter (fun x => decide (5 < x.1.2.length)) ↔
      r ∈ rows ∧ 5 < r.1.2.length
    rw [List.mem_filter, decide_eq_true_eq]
  · decide

/-! ## C4 — aggregate type mismatch fails the query -/

theorem sumNums_error {v : String} {bs : List Binding}
    (h : ∃ b ∈ bs, toNum (lookupVar v b) = none) :
    ∃ e, sumNums v bs = Except.error e := by
  induction bs with
  | nil =>
    rcases h with ⟨b, hb, -⟩
    exact absurd hb (List.not_mem_nil b)
  | cons b bs ih =>
    rcases h with ⟨b₀, hb₀, hn⟩
    rcases List.mem_cons.mp hb₀ with rfl | hmem
    · refine ⟨"TypeMismatch", ?_⟩
      simp only [sumNums, hn]
    · cases ht : toNum (lookupVar v b) with
      | none =>
        refine ⟨"TypeMismatch", ?_⟩
        simp only [sumNums, ht]
      | some q =>
        rcases ih ⟨b₀, hmem, hn⟩ with ⟨e, he⟩
        refine ⟨e, ?_⟩
        simp only [sumNums, ht, he, Except.map]

theorem mapME_error {α β : Type} {f : α → Except String β} {l : List α} {x : α}
    (hx : x ∈ l) (h : ∃ e, f x = Except.error e) :
    ∃ e, mapME f l = Except.error e := by
  induction l with
  | nil => exact absurd hx (List.not_mem_nil x)
  | cons a as ih =>
    rcases List.mem_cons.mp hx with rfl | hmem
    · rcases h with ⟨e, he⟩
      refine ⟨e, ?_⟩
      simp only [mapME, he, Except.bind]
    · cases ha : f a with
      | error e =>
        refine ⟨e, ?_⟩
        simp only [mapME, ha, Except.bind]
      | ok b =>
        rcases ih hmem with ⟨e, he⟩
        refine ⟨e, ?_⟩
        simp only [mapME, ha, he, Except.bind, Except.map]

theorem computeAggs_error {q : Query} {kg : GroupKey × List Binding}
    {name v : String}
    (hagg : (name, AggFun.sum v) ∈ q.aggs ∨ (name, AggFun.avg v) ∈ q.aggs)
    (hbad : ∃ b ∈ kg.2, toNum (lookupVar v b) = none) :
    ∃ e, computeAggs q kg = Except.error e := by
  rcases sumNums_error hbad with ⟨e0, he0⟩
  rcases hagg with hmem | hmem
  · rcases @mapME_error (String × AggFun) (String × Value)
      (fun na => (evalAgg kg.2 na.2).map (fun w => (na.1, w))) q.aggs
      (name, AggFun.sum v) hmem
      ⟨e0, by simp only [evalAgg, he0, Except.map]⟩ with ⟨e, he⟩
    refine ⟨e, ?_⟩
    simp only [computeAggs]
    rw [he]
    rfl
  · rcases @mapME_error (String × AggFun) (String × Value)
      (fun na => (evalAgg kg.2 na.2).map (fun w => (na.1, w))) q.aggs
      (name, AggFun.avg v) hmem
      ⟨e0, by simp only [evalAgg, he0, Except.map]⟩ with ⟨e, he⟩
    refine ⟨e, ?_⟩
    simp only [computeAggs]
    rw [he]
    rfl

/-- Claim C4: if a query requests `SUM` or `AVG` over a variable and any
group contains a tuple whose binding of that variable is absent or not a
numeric literal, the whole query evaluation fails with an error — it does
not return a partial or zero result. -/
theorem c4_aggregate_type_mismatch (q : Query) (g : List Triple) (name v : String)
    (hagg : (name, AggFun.sum v) ∈ q.aggs ∨ (name, AggFun.avg v) ∈ q.aggs)
    (hbad : ∃ kg ∈ queryGroups q g, ∃ b ∈ kg.2, toNum (lookupVar v b) = none) :
    ∃ e, evalQuery q g = Except.error e := by
  rcases hbad with ⟨kg, hkg, hb⟩
  rcases mapME_error hkg (computeAggs_error hagg hb) with ⟨e, he⟩
  exact ⟨e, by simp only [evalQuery, queryGroupsWithAggs, he, Except.map]⟩

/-- Witness for C4 at the concrete one-pattern `SUM` query over a store
whose revenue value is a string literal. -/
theorem c4_aggregate_type_mismatch_witness :
    (("total", AggFun.sum "rev") ∈ c4_query.aggs ∨
        ("total", AggFun.avg "rev") ∈ c4_query.aggs) ∧
      (∃ kg ∈ queryGroups c4_query c4_store,
        ∃ b ∈ kg.2, toNum (lookupVar "rev" b) = none) ∧
      ∃ e, evalQuery c4_query c4_store = Except.error e :=
  ⟨by decide, by decide,
    c4_aggregate_type_mismatch c4_query c4_store "total" "rev"
      (by decide) (by decide)⟩

end OntoKG
